import Mathlib

/-!
Verification of the pulse-sensors-appdaemon repository.

This file gives a shallow embedding, in Lean 4, of the pure core of the
repository:

* `PulseModels` embeds `src/pulseapp/models.py` (enumerations with their
  integer codes and the `_missing_` fallback, the pydantic record types,
  and `DeviceClass.from_param_name`).
* `PulseApp` embeds the pure data flow of `src/pulseapp/app.py`
  (`update_intervals`, `_get_hub_details`, `get_sensor_latest_data`,
  `hub_device_discovery`, `_process_and_publish_hubs`,
  `_process_and_publish_devices`, `_process_device_components`,
  `hub_sensor_updates`, `_publish_hub_state`, `_publish_device_state`,
  `_generate_sensor_payload`).
* `PulseSensorsLegacy` embeds `src/pulse_sensors.py` (`update_intervals`
  and `update_sensors`).

Modelling conventions, used throughout:

* Python `datetime` values are modelled as integers (any linearly ordered
  time stamp representation works for the claims below).
* Python `float` sensor values are modelled as rationals.
* A Python `dict` (which preserves insertion order and overwrites the
  value in place on an existing key) is modelled as an association list
  with the insert-or-overwrite operation `dictInsert`.
* An HTTP request that raises is modelled by an explicit
  `ApiOutcome.transportError` constructor; a falsy JSON body by
  `ApiOutcome.emptyBody`; a pydantic `ValidationError` by
  `ApiOutcome.invalid`.  A function that can propagate an exception
  returns a `raised` flag (or an `Option`) rather than a value.
* Python string `lower()` is modelled character-wise with `Char.toLower`
  (all parameter names handled by the program are ASCII); `replace(" ", "_")`
  is modelled character-wise as well, which is faithful because both the
  pattern and the replacement are single characters.
-/

namespace PulseVerif

/-- A Python `dict` with string keys, as an insertion-ordered association
list.  Python dict assignment `d[k] = v` overwrites in place when the key
exists and appends otherwise. -/
abbrev Dict (α : Type) := List (String × α)

/-- Python dict assignment `d[k] = v`: overwrite in place, else append. -/
def dictInsert {α : Type} (d : Dict α) (k : String) (v : α) : Dict α :=
  if d.any (fun p => p.1 = k) then
    d.map (fun p => if p.1 = k then (k, v) else p)
  else
    d ++ [(k, v)]

/-- The keys of a dict, in insertion order. -/
def dictKeys {α : Type} (d : Dict α) : List String :=
  d.map Prod.fst

namespace PulseModels

/-- `DeviceType` from `src/pulseapp/models.py` (identical in
`src/pulse_models.py` and `src/pulse_sensors.py`). -/
inductive DeviceType where
  | PULSE_ONE
  | PULSE_PRO
  | HUB
  | SENSOR
  | CONTROL
  | PULSE_ZERO
  | UNKNOWN
deriving DecidableEq

/-- The integer codes defined by the `DeviceType` enumeration. -/
def DeviceType.definedValues : List Int := [0, 1, 2, 3, 4, 5, -1]

/-- Models the enum constructor call `DeviceType(v)`.  A value in the
defined set yields its member; any other value goes through `_missing_`,
which returns `UNKNOWN`. -/
def DeviceType.fromValue (v : Int) : DeviceType :=
  if v = 0 then .PULSE_ONE
  else if v = 1 then .PULSE_PRO
  else if v = 2 then .HUB
  else if v = 3 then .SENSOR
  else if v = 4 then .CONTROL
  else if v = 5 then .PULSE_ZERO
  else if v = -1 then .UNKNOWN
  else .UNKNOWN

/-- `SensorType` from `src/pulseapp/models.py`. -/
inductive SensorType where
  | HUB
  | VWC1
  | THV1
  | PH10
  | EC1
  | VWC12
  | PAR1
  | VWC2
  | ORP1
  | THC1
  | TDO1
  | VWC3
  | UNKNOWN
deriving DecidableEq

/-- The integer codes defined by the `SensorType` enumeration. -/
def SensorType.definedValues : List Int := [0, 1, 2, 3, 4, 5, 8, 9, 10, 11, 12, 13, -1]

/-- Models the enum constructor call `SensorType(v)` with the `_missing_`
fallback to `UNKNOWN`. -/
def SensorType.fromValue (v : Int) : SensorType :=
  if v = 0 then .HUB
  else if v = 1 then .VWC1
  else if v = 2 then .THV1
  else if v = 3 then .PH10
  else if v = 4 then .EC1
  else if v = 5 then .VWC12
  else if v = 8 then .PAR1
  else if v = 9 then .VWC2
  else if v = 10 then .ORP1
  else if v = 11 then .THC1
  else if v = 12 then .TDO1
  else if v = 13 then .VWC3
  else if v = -1 then .UNKNOWN
  else .UNKNOWN

/-- The Python `.name` attribute of a `SensorType` member. -/
def SensorType.pyName : SensorType → String
  | .HUB => "HUB"
  | .VWC1 => "VWC1"
  | .THV1 => "THV1"
  | .PH10 => "PH10"
  | .EC1 => "EC1"
  | .VWC12 => "VWC12"
  | .PAR1 => "PAR1"
  | .VWC2 => "VWC2"
  | .ORP1 => "ORP1"
  | .THC1 => "THC1"
  | .TDO1 => "TDO1"
  | .VWC3 => "VWC3"
  | .UNKNOWN => "UNKNOWN"

/-- `SensorReadingType` from `src/pulseapp/models.py`. -/
inductive SensorReadingType where
  | VWC1_RH
  | VWC1_TEMPERATURE
  | VWC1_CONDUCTIVITY
  | VWC1_CONDUCTIVITY_PWE
  | VWC2_RH
  | VWC2_TEMPERATURE
  | VWC2_CONDUCTIVITY
  | VWC2_CONDUCTIVITY_PWE
  | VWC12_RH
  | VWC12_TEMPERATURE
  | VWC12_CONDUCTIVITY
  | VWC12_CONDUCTIVITY_PWE
  | PH
  | WATER_TEMPERATURE
  | VPD
  | DEW_POINT
  | AIR_TEMPERATURE
  | ORP
  | CO2
  | DLI
  | PPFD
  | EC
  | THC1_LIGHT
  | RH
  | ORIGINAL_DEVICES_LIGHT
  | DO
  | UNKNOWN
deriving DecidableEq

/-- The integer codes defined by the `SensorReadingType` enumeration:
`0` through `25`, plus `-1` for `UNKNOWN`. -/
def SensorReadingType.definedValues : List Int :=
  [0, 1, 2, 3, 4, 5, 6, 7, 8, 9, 10, 11, 12, 13, 14, 15, 16, 17, 18,
   19, 20, 21, 22, 23, 24, 25, -1]

/-- Models the enum constructor call `SensorReadingType(v)` with the
`_missing_` fallback to `UNKNOWN`. -/
def SensorReadingType.fromValue (v : Int) : SensorReadingType :=
  if v = 0 then .VWC1_RH
  else if v = 1 then .VWC1_TEMPERATURE
  else if v = 2 then .VWC1_CONDUCTIVITY
  else if v = 3 then .VWC1_CONDUCTIVITY_PWE
  else if v = 4 then .VWC2_RH
  else if v = 5 then .VWC2_TEMPERATURE
  else if v = 6 then .VWC2_CONDUCTIVITY
  else if v = 7 then .VWC2_CONDUCTIVITY_PWE
  else if v = 8 then .VWC12_RH
  else if v = 9 then .VWC12_TEMPERATURE
  else if v = 10 then .VWC12_CONDUCTIVITY
  else if v = 11 then .VWC12_CONDUCTIVITY_PWE
  else if v = 12 then .PH
  else if v = 13 then .WATER_TEMPERATURE
  else if v = 14 then .VPD
  else if v = 15 then .DEW_POINT
  else if v = 16 then .AIR_TEMPERATURE
  else if v = 17 then .ORP
  else if v = 18 then .CO2
  else if v = 19 then .DLI
  else if v = 20 then .PPFD
  else if v = 21 then .EC
  else if v = 22 then .THC1_LIGHT
  else if v = 23 then .RH
  else if v = 24 then .ORIGINAL_DEVICES_LIGHT
  else if v = 25 then .DO
  else if v = -1 then .UNKNOWN
  else .UNKNOWN

/-- `ThresholdType` from `src/pulseapp/models.py` lines 109 to 119
(identical in `src/pulse_models.py`).  Note: unlike the three
enumerations above, this enumeration defines NO `UNKNOWN` member and NO
`_missing_` classmethod. -/
inductive ThresholdType where
  | LIGHT
  | TEMPERATURE
  | HUMIDITY
  | POWER
  | CONNECTIVITY
  | BATTERY_V
  | CO2
  | VOC
  | VPD
  | DEW_POINT
deriving DecidableEq

/-- The integer codes defined by the `ThresholdType` enumeration. -/
def ThresholdType.definedValues : List Int := [1, 2, 3, 4, 5, 6, 7, 8, 11, 12]

/-- Models the enum constructor call `ThresholdType(v)`.  Because the
class defines no `_missing_` method, Python raises `ValueError` for a
value outside the defined set; the raise is modelled by `none`. -/
def ThresholdType.fromValue (v : Int) : Option ThresholdType :=
  if v = 1 then some .LIGHT
  else if v = 2 then some .TEMPERATURE
  else if v = 3 then some .HUMIDITY
  else if v = 4 then some .POWER
  else if v = 5 then some .CONNECTIVITY
  else if v = 6 then some .BATTERY_V
  else if v = 7 then some .CO2
  else if v = 8 then some .VOC
  else if v = 11 then some .VPD
  else if v = 12 then some .DEW_POINT
  else none

/-- `HubThresholdType` from `src/pulseapp/models.py`. -/
inductive HubThresholdType where
  | POWER
  | CONNECTIVITY
deriving DecidableEq

/-- `DataPointValue` from `src/pulseapp/models.py`.  The float value is
modelled as a rational. -/
structure DataPointValue where
  MeasuringUnit : String
  ParamName : String
  ParamValue : ℚ
deriving DecidableEq

/-- `DataPointDto` from `src/pulseapp/models.py`.  The
`triggeredThresholds` list is not modelled (no claim concerns it); the
`createdAt` datetime is modelled as an integer time stamp. -/
structure DataPointDto where
  dataPointValues : List DataPointValue
  sensorId : Int
  createdAt : Int
deriving DecidableEq

/-- `LatestSensorData` from `src/pulseapp/models.py`.  The pydantic field
`sensorType : SensorType` coerces the incoming integer through the
enumeration (with its `_missing_` fallback). -/
structure LatestSensorData where
  sensorType : SensorType
  deviceType : Int
  name : String
  dataPointDto : DataPointDto
deriving DecidableEq

/-- `HubThreshold` from `src/pulseapp/models.py`. -/
structure HubThreshold where
  hubId : Int
  thresholdType : HubThresholdType
  id : Int
  notificationActive : Bool
  lowThresholdValue : Option ℚ
  highThresholdValue : Option ℚ
  delay : String
  day : Option String
deriving DecidableEq

/-- `SensorDevice` from `src/pulseapp/models.py`. -/
structure SensorDevice where
  hubId : Int
  parSensorSubtype : Option String
  deviceType : Int
  sensorType : Int
  id : Int
  displayOrder : Int
  name : String
  growId : Int
  hidden : Bool
deriving DecidableEq

/-- `HubDetails` from `src/pulseapp/models.py`. -/
structure HubDetails where
  id : Int
  name : String
  hubThresholds : List HubThreshold
  hidden : Bool
  macAddress : String
  growId : Int
  sensorDevices : List SensorDevice
deriving DecidableEq

/-- `DeviceClass` from `src/pulseapp/models.py`: Home Assistant device
classes mapped from parameter names. -/
inductive DeviceClass where
  | HUMIDITY
  | TEMPERATURE
  | MOISTURE
  | PRESSURE
deriving DecidableEq

/-- The string value of a `DeviceClass` member. -/
def DeviceClass.value : DeviceClass → String
  | .HUMIDITY => "humidity"
  | .TEMPERATURE => "temperature"
  | .MOISTURE => "moisture"
  | .PRESSURE => "pressure"

/-- `DeviceClass.from_param_name`: an exact, case-sensitive lookup in the
fixed four-entry mapping; any other name yields `None`. -/
def DeviceClass.from_param_name (param_name : String) : Option DeviceClass :=
  if param_name = "Humidity" then some .HUMIDITY
  else if param_name = "Temperature" then some .TEMPERATURE
  else if param_name = "Water Content" then some .MOISTURE
  else if param_name = "VPD" then some .PRESSURE
  else none

end PulseModels

namespace PulseApp

open PulseModels

/-- The action of Python `"x".replace(" ", "_")` on one character. -/
def repSpaceChar (c : Char) : Char :=
  if c = ' ' then '_' else c

/-- Character-wise model of the Python call `s.replace(" ", "_")`:
faithful because pattern and replacement are single characters. -/
def pyReplaceSpaceWithUnderscore (s : String) : String :=
  String.mk (s.data.map repSpaceChar)

/-- Character-wise model of the Python call `s.lower()`, using
`Char.toLower` (the parameter and member names the program handles are
ASCII). -/
def pyLower (s : String) : String :=
  String.mk (s.data.map Char.toLower)

/-- The inline parameter-name normalization used throughout
`src/pulseapp/app.py`: `ParamName.replace(" ", "_").lower()`. -/
def normalizeParamName (s : String) : String :=
  pyLower (pyReplaceSpaceWithUnderscore s)

/-- The outcome of one `_make_pulse_api_request` call, as the caller sees
it: the underlying request raised (`transportError`), the JSON body was
falsy (`emptyBody`), the body failed pydantic validation (`invalid`), or
a validated value came back (`valid`).  The callers below never pass
`ignore_errors`, so a transport error re-raises out of
`_make_pulse_api_request`. -/
inductive ApiOutcome (α : Type) where
  | transportError
  | emptyBody
  | invalid
  | valid (a : α)
deriving DecidableEq

/-- `_get_hub_details`: `.error ()` models the propagated transport
exception; `.ok none` models the `return None` branches (falsy body,
`ValidationError`); `.ok (some h)` a validated `HubDetails`. -/
def _get_hub_details (o : ApiOutcome HubDetails) : Except Unit (Option HubDetails) :=
  match o with
  | .transportError => .error ()
  | .emptyBody => .ok none
  | .invalid => .ok none
  | .valid h => .ok (some h)

/-- `get_sensor_latest_data`: identical failure policy to
`_get_hub_details`. -/
def get_sensor_latest_data (o : ApiOutcome LatestSensorData) :
    Except Unit (Option LatestSensorData) :=
  match o with
  | .transportError => .error ()
  | .emptyBody => .ok none
  | .invalid => .ok none
  | .valid d => .ok (some d)

/-- One entry of the `components` dict built by
`_process_device_components`. -/
structure Component where
  platform : String
  name : String
  unique_id : String
  object_id : String
  unit_of_measurement : String
  device_class : Option String
  state_topic : String
  value_template : String
deriving DecidableEq

/-- One MQTT publish call.  Config payloads are summarised by the fields
the claims mention; a device state message carries the device id it was
published for and its JSON payload as a dict of normalized parameter
names to values. -/
inductive Published where
  | hubConfig (topic : String) (hubUniqueId : String) (hubName : String) (mac : String)
  | deviceConfig (topic : String) (deviceUniqueId : String) (viaDevice : String)
      (components : Dict Component)
  | hubState (topic : String) (payload : String)
  | deviceState (topic : String) (deviceId : Int) (payload : Dict ℚ)
deriving DecidableEq

/-- Is this message the state message `_publish_device_state` emits for
device `d`? -/
def Published.isStateFor (d : Int) : Published → Bool
  | .deviceState _ i _ => i = d
  | _ => false

/-- `_process_device_components`: one `components` entry per data point,
keyed by `{device_unique_id}_{normalized param}`. -/
def _process_device_components (device_unique_id : String)
    (device_data : LatestSensorData) : Dict Component :=
  device_data.dataPointDto.dataPointValues.foldl
    (fun components measurement =>
      let param_name := normalizeParamName measurement.ParamName
      let comp_unique_id := device_unique_id ++ "_" ++ param_name
      let device_class_enum := DeviceClass.from_param_name measurement.ParamName
      dictInsert components comp_unique_id
        { platform := "sensor"
          name := measurement.ParamName
          unique_id := comp_unique_id
          object_id := comp_unique_id
          unit_of_measurement := measurement.MeasuringUnit
          device_class := device_class_enum.map DeviceClass.value
          state_topic := "pulseapp/" ++ device_unique_id ++ "/state"
          value_template := "\x7b\x7b value_json." ++ param_name ++ " \x7d\x7d" })
    []

/-- `_generate_sensor_payload`: the flat dict of normalized parameter
name to value for a device. -/
def _generate_sensor_payload (device_data : LatestSensorData) : Dict ℚ :=
  device_data.dataPointDto.dataPointValues.foldl
    (fun payload measurement =>
      dictInsert payload (normalizeParamName measurement.ParamName)
        measurement.ParamValue)
    []

/-- The `device_unique_id` string `_publish_device_state` derives:
`pulseapp_{sensorType.name normalized}_{device_id}`. -/
def deviceUniqueIdForState (device_id : Int) (device_data : LatestSensorData) : String :=
  "pulseapp_" ++ normalizeParamName device_data.sensorType.pyName ++ "_"
    ++ toString device_id

/-- `_publish_device_state`: one retained MQTT message on
`pulseapp/{device_unique_id}/state` with the generated payload. -/
def _publish_device_state (device_id : Int) (device_data : LatestSensorData) :
    Published :=
  .deviceState ("pulseapp/" ++ deviceUniqueIdForState device_id device_data ++ "/state")
    device_id (_generate_sensor_payload device_data)

/-- `_publish_hub_state`: the retained `"ON"` message on the hub state
topic. -/
def _publish_hub_state (hub : HubDetails) : Published :=
  .hubState ("pulseapp/pulseapp_hub_" ++ toString hub.id ++ "/state") "ON"

/-- The result of one `hub_sensor_updates` callback: the MQTT messages
published, the sensor ids passed to `get_sensor_latest_data`, and
whether an exception propagated out of the callback. -/
structure UpdatesResult where
  published : List Published
  fetched : List Int
  raised : Bool
deriving DecidableEq

/-- The inner device loop of `hub_sensor_updates`: fetch the latest data
for each device; `continue` on an absent result; publish otherwise.  A
transport error propagates, ending the loop. -/
def updateDevicesLoop (env : Int → ApiOutcome LatestSensorData)
    (devices : List SensorDevice) (acc : UpdatesResult) : UpdatesResult :=
  devices.foldl
    (fun acc device =>
      if acc.raised then acc
      else
        let acc := { acc with fetched := acc.fetched ++ [device.id] }
        match get_sensor_latest_data (env device.id) with
        | .error _ => { acc with raised := true }
        | .ok none => acc
        | .ok (some device_data) =>
            { acc with
              published := acc.published ++ [_publish_device_state device.id device_data] })
    acc

/-- The outer loop body of `hub_sensor_updates` for one hub of the
snapshot: publish the hub state, then walk its devices. -/
def hubUpdateStep (env : Int → ApiOutcome LatestSensorData)
    (acc : UpdatesResult) (p : String × HubDetails) : UpdatesResult :=
  if acc.raised then acc
  else
    updateDevicesLoop env p.2.sensorDevices
      { acc with published := acc.published ++ [_publish_hub_state p.2] }

/-- `hub_sensor_updates`: short-circuits with a warning when no discovery
has run; otherwise publishes each hub state and each device state. -/
def hub_sensor_updates (env : Int → ApiOutcome LatestSensorData)
    (discovered_hubs : Dict HubDetails) : UpdatesResult :=
  if discovered_hubs = [] then ⟨[], [], false⟩
  else discovered_hubs.foldl (hubUpdateStep env) ⟨[], [], false⟩

/-- Model of `textwrap.wrap(mac, 2)`: split into chunks of two
characters. -/
def chunkPairs : List Char → List String
  | [] => []
  | [a] => [String.mk [a]]
  | a :: b :: rest => String.mk [a, b] :: chunkPairs rest

/-- The colon-separated MAC address string built in
`_process_and_publish_hubs`. -/
def macWithColons (mac : String) : String :=
  String.intercalate ":" (chunkPairs mac.data)

/-- The hub discovery config message published for one hub. -/
def hubConfigMsg (hub : HubDetails) : Published :=
  let hub_unique_id := "pulseapp_hub_" ++ toString hub.id
  .hubConfig ("homeassistant/device/" ++ hub_unique_id ++ "/config")
    hub_unique_id hub.name (macWithColons hub.macAddress)

/-- The state a discovery cycle threads: the instance dict
`self.discovered_hubs`, the local dict `discovered_attributes`, the MQTT
messages published so far, the attributes passed to
`set_state("discovered_hubs", ...)` at the end of
`_process_and_publish_hubs` (absent while the loop runs or when an
exception propagated first), and whether an exception propagated. -/
structure DiscoveryState where
  discovered_hubs : Dict HubDetails
  discovered_attributes : Dict HubDetails
  published : List Published
  attributesSet : Option (Dict HubDetails)
  raised : Bool
deriving DecidableEq

/-- The loop body of `_process_and_publish_hubs` over one hub id. -/
def processHubStep (envHub : Int → ApiOutcome HubDetails) (st : DiscoveryState)
    (hub_id : Int) : DiscoveryState :=
  if st.raised then st
  else
    match _get_hub_details (envHub hub_id) with
    | .error _ => { st with raised := true }
    | .ok none => st
    | .ok (some hub) =>
        let hub_unique_id := "pulseapp_hub_" ++ toString hub.id
        { st with
          published := st.published ++ [hubConfigMsg hub]
          discovered_hubs := dictInsert st.discovered_hubs hub_unique_id hub
          discovered_attributes := dictInsert st.discovered_attributes hub_unique_id hub }

/-- `_process_and_publish_hubs`: iterate the hub ids (never clearing
`self.discovered_hubs`), then publish the freshly built
`discovered_attributes` dict through `set_state` (reached only when no
exception propagated out of the loop). -/
def _process_and_publish_hubs (envHub : Int → ApiOutcome HubDetails)
    (hub_ids : List Int) (discovered_hubs : Dict HubDetails) : DiscoveryState :=
  let st := hub_ids.foldl (processHubStep envHub)
    ⟨discovered_hubs, [], [], none, false⟩
  if st.raised then st else { st with attributesSet := some st.discovered_attributes }

/-- The device-discovery phase for one hub
(`_process_and_publish_devices`): fetch each attached device, skip
absent results, and publish one device config message per device. -/
def _process_and_publish_devices (envSensor : Int → ApiOutcome LatestSensorData)
    (hub_unique_id : String) (hub : HubDetails) (acc : List Published × Bool) :
    List Published × Bool :=
  hub.sensorDevices.foldl
    (fun acc device =>
      if acc.2 then acc
      else
        match get_sensor_latest_data (envSensor device.id) with
        | .error _ => (acc.1, true)
        | .ok none => acc
        | .ok (some device_data) =>
            let device_type := pyLower device_data.sensorType.pyName
            let device_unique_id := "pulseapp_" ++ device_type ++ "_" ++ toString device.id
            let components := _process_device_components device_unique_id device_data
            (acc.1 ++ [.deviceConfig
              ("homeassistant/device/" ++ device_unique_id ++ "/config")
              device_unique_id hub_unique_id components], false))
    acc

/-- One full `hub_device_discovery` callback: fetch the hub ids (a raise
propagates; a falsy or non-list body yields `[]` and the cycle
short-circuits), process and publish hubs, then — when the snapshot is
non-empty — publish device discovery for every hub in the snapshot. -/
def hub_device_discovery (envIds : ApiOutcome (List Int))
    (envHub : Int → ApiOutcome HubDetails)
    (envSensor : Int → ApiOutcome LatestSensorData)
    (discovered_hubs : Dict HubDetails) : DiscoveryState :=
  match envIds with
  | .transportError => ⟨discovered_hubs, [], [], none, true⟩
  | .emptyBody => ⟨discovered_hubs, [], [], none, false⟩
  | .invalid => ⟨discovered_hubs, [], [], none, false⟩
  | .valid hub_ids =>
      if hub_ids = [] then ⟨discovered_hubs, [], [], none, false⟩
      else
        let st := _process_and_publish_hubs envHub hub_ids discovered_hubs
        if st.raised then st
        else if st.discovered_hubs = [] then st
        else
          let devicesOut := st.discovered_hubs.foldl
            (fun acc p =>
              if acc.2 then acc
              else _process_and_publish_devices envSensor p.1 p.2 acc)
            (st.published, false)
          { st with published := devicesOut.1, raised := devicesOut.2 }

end PulseApp

namespace Sched

/-- The two jobs the apps schedule. -/
inductive JobKind where
  | stateUpdate
  | discovery
deriving DecidableEq

/-- One scheduled AppDaemon timer, as `run_every(callback, "now",
interval)` creates it: `start = "now"` means the first fire is
immediate, then the job repeats every `interval` seconds. -/
structure Timer where
  handle : Nat
  kind : JobKind
  start : String
  interval : Int
deriving DecidableEq

/-- The host scheduler state: the active timers and a fresh-handle
counter. -/
structure SchedState where
  timers : List Timer
  nextHandle : Nat
deriving DecidableEq

/-- `run_every(callback, "now", interval)`: registers one new timer and
returns its handle. -/
def run_every (kind : JobKind) (start : String) (interval : Int)
    (s : SchedState) : Nat × SchedState :=
  (s.nextHandle,
   ⟨s.timers ++ [⟨s.nextHandle, kind, start, interval⟩], s.nextHandle + 1⟩)

/-- `cancel_timer(handle)`: removes the timer with that handle (a no-op
when none exists). -/
def cancel_timer (handle : Nat) (s : SchedState) : SchedState :=
  ⟨s.timers.filter (fun t => t.handle ≠ handle), s.nextHandle⟩

end Sched

namespace PulseSensorsLegacy

open Sched

/-- The entities `initialize` in `src/pulse_sensors.py` registers
`update_intervals` as a `listen_state` callback on. -/
def listenedEntities : List String :=
  ["input_number.sensor_update_interval", "input_number.sensor_discovery_interval"]

/-- The scheduler-facing instance state of the `PulseSensors` app: the
host timers plus the two job handles set during startup. -/
structure AppState where
  sched : SchedState
  sensor_update_job_uuid : Nat
  sensor_discover_job_uuid : Nat
deriving DecidableEq

/-- `PulseSensors.update_intervals` from `src/pulse_sensors.py` lines 147
to 159: note that the two branches compare `entity` against
`input_number.pulse_update_interval` and
`input_number.pulse_discover_interval`, names that differ from the
entities `listen_state` was registered on. -/
def update_intervals (entity : String) (new : Int) (st : AppState) : AppState :=
  let new_interval := new
  if entity = "input_number.pulse_update_interval" then
    let s := cancel_timer st.sensor_update_job_uuid st.sched
    let (h, s) := run_every .stateUpdate "now" new_interval s
    { st with sched := s, sensor_update_job_uuid := h }
  else if entity = "input_number.pulse_discover_interval" then
    let s := cancel_timer st.sensor_discover_job_uuid st.sched
    let (h, s) := run_every .discovery "now" new_interval s
    { st with sched := s, sensor_discover_job_uuid := h }
  else st

end PulseSensorsLegacy

namespace PulseApp

open Sched

/-- The entities `_register_update_interval_listeners` in
`src/pulseapp/app.py` registers `update_intervals` on. -/
def listenedEntities : List String :=
  ["input_number.sensor_update_interval", "input_number.sensor_discovery_interval"]

/-- The scheduler-facing instance state of the `PulseApp` app: the host
timers plus the two job handles (each `None` until set). -/
structure TimerAppState where
  sched : SchedState
  state_update_job : Option Nat
  discovery_job : Option Nat
deriving DecidableEq

/-- `PulseApp.update_intervals` from `src/pulseapp/app.py` lines 133 to
161: cancel the old timer for the changed entity (when a handle exists)
and register exactly one new `run_every` job at the new interval. -/
def update_intervals (entity : String) (new : Int) (st : TimerAppState) :
    TimerAppState :=
  let new_interval := new
  if entity = "input_number.sensor_update_interval" then
    let s := match st.state_update_job with
      | some h => cancel_timer h st.sched
      | none => st.sched
    let (h, s) := run_every .stateUpdate "now" new_interval s
    { st with sched := s, state_update_job := some h }
  else if entity = "input_number.sensor_discovery_interval" then
    let s := match st.discovery_job with
      | some h => cancel_timer h st.sched
      | none => st.sched
    let (h, s) := run_every .discovery "now" new_interval s
    { st with sched := s, discovery_job := some h }
  else st

end PulseApp

namespace PulseSensorsLegacy

/-- A Python `datetime` value, as `update_sensors` handles them: the
instant (an integer) together with whether the object is timezone-aware.
`datetime.strptime(s, "%Y-%m-%dT%H:%M:%SZ")` at line 266 matches the
trailing `Z` as a literal character and yields a NAIVE datetime; the
default prior `datetime.now(timezone.utc) - timedelta(hours=1)` at line
269 and every `entry_time` (`.replace(tzinfo=timezone.utc)`, line 334)
are AWARE. -/
inductive PyDatetime where
  | naive (t : Int)
  | aware (t : Int)
deriving DecidableEq

/-- The Python comparison `a > b` on datetimes: defined between two
naive or two aware values, and raising `TypeError` (modelled `.error ()`)
between a naive and an aware value — the crash of
`pulse_sensors.py:336` and the guard of line 360. -/
def PyDatetime.gtCompare : PyDatetime → PyDatetime → Except Unit Bool
  | .aware a, .aware b => .ok (decide (a > b))
  | .naive a, .naive b => .ok (decide (a > b))
  | _, _ => .error ()

/-- One parameter block of a `/sensors/{id}/data-range` response
(`response["dataPointValues"][j]`): the parameter name, its measuring
unit, and the result of `list(map(float, ParamValues.split(", ")))` —
`none` models the `ValueError` branch, values are modelled as
rationals. -/
structure DataGroup where
  ParamName : String
  MeasuringUnit : String
  parsedValues : Option (List ℚ)
deriving DecidableEq

/-- One `/sensors/{id}/data-range` response as `update_sensors` sees it:
falsy (`absent`), a body that is not a dict with the two required keys
(`malformed`), or the timestamp string list
(`dataPointValuesCreatedAt`) with the parameter blocks
(`dataPointValues`).  Each timestamp entry is the result of the
per-entry `strptime` at line 332: `some t` for a string that parses
(always naive there, then made aware at line 334), `none` for a
malformed string whose parse raises an uncaught `ValueError` when the
inner loop reaches it. -/
inductive RangeResponse where
  | absent
  | malformed
  | ok (timestamps : List (Option Int)) (groups : List DataGroup)
deriving DecidableEq

/-- One discovered sensor together with the response its
`get_sensor_data` fetch produced this cycle. -/
structure SensorCycleInput where
  sensorId : String
  name : String
  response : RangeResponse
deriving DecidableEq

/-- One Home Assistant state written by the inner loop of
`update_sensors`. -/
structure PublishedState where
  key : String
  value : ℚ
  unit : String
  friendly_name : String
deriving DecidableEq

/-- The running state of one `update_sensors` cycle: the states written
so far, the running `new_timestamp` (a datetime, naive or aware), and
whether an uncaught exception has propagated — once `raised` is set,
nothing further executes. -/
structure CycleAcc where
  states : List PublishedState
  new_timestamp : PyDatetime
  raised : Bool
deriving DecidableEq

/-- One step of the innermost loop of `update_sensors`
(`for i, timestamp in enumerate(timestamps)`, lines 331 to 358), in
source order: parse the timestamp string (`ValueError` on a malformed
one, line 332), make it aware (line 334), compare it with the running
`new_timestamp` (`TypeError` when that is naive, line 336), raise the
running timestamp when strictly later, then write one state for the
entry.  A raise happens before the entry's `set_state`. -/
def groupEntryStep (sensor : SensorCycleInput) (group : DataGroup)
    (acc : CycleAcc) (tv : Option Int × ℚ) : CycleAcc :=
  if acc.raised then acc
  else
    match tv.1 with
    | none => { acc with raised := true }
    | some t =>
        match PyDatetime.gtCompare (.aware t) acc.new_timestamp with
        | .error _ => { acc with raised := true }
        | .ok later =>
            let new_timestamp := if later then PyDatetime.aware t else acc.new_timestamp
            let sensor_key :=
              PulseApp.pyReplaceSpaceWithUnderscore (PulseApp.pyLower group.ParamName)
            let state_key := "sensor.pulse_" ++ sensor.sensorId ++ "_" ++ sensor_key
            let unit := if group.MeasuringUnit ≠ "" then group.MeasuringUnit else "N/A"
            let entryState : PublishedState :=
              { key := state_key, value := tv.2, unit := unit,
                friendly_name := group.ParamName ++ " - " ++ sensor.name }
            { states := acc.states ++ [entryState],
              new_timestamp := new_timestamp, raised := false }

/-- The states and running `new_timestamp` produced for one valid
parameter group: iterate the timestamp list against the parsed values. -/
def processGroupEntries (sensor : SensorCycleInput) (group : DataGroup)
    (timestamps : List (Option Int)) (vals : List ℚ)
    (acc : CycleAcc) : CycleAcc :=
  (timestamps.zip vals).foldl (groupEntryStep sensor group) acc

/-- One parameter group of one sensor response: skip a group whose
values failed to parse (`ValueError` caught at line 317) or whose length
mismatches the timestamp list. -/
def processGroup (sensor : SensorCycleInput) (timestamps : List (Option Int))
    (acc : CycleAcc) (group : DataGroup) : CycleAcc :=
  match group.parsedValues with
  | none => acc
  | some vals =>
      if vals.length ≠ timestamps.length then acc
      else processGroupEntries sensor group timestamps vals acc

/-- The inner loop of `update_sensors` over one sensor: skip an absent
or malformed response and skip an empty timestamp list. -/
def processSensor (acc : CycleAcc) (sensor : SensorCycleInput) : CycleAcc :=
  match sensor.response with
  | .absent => acc
  | .malformed => acc
  | .ok timestamps groups =>
      if timestamps = [] then acc
      else groups.foldl (processGroup sensor timestamps) acc

/-- The outcome of one `update_sensors` callback: the states written
before any crash, the value written to `input_text.pulse_last_update`
(`none` when the final write at line 361 does not happen — guard false
or crash), and whether an uncaught exception propagated. -/
structure UpdateOutcome where
  states : List PublishedState
  stored : Option PyDatetime
  raised : Bool
deriving DecidableEq

/-- `PulseSensors.update_sensors` from `src/pulse_sensors.py` lines 259
to 362, with the fetches already folded into the input: `none` models
the missing `sensor.pulse_discovered_sensors` state (warn and return).
`last_update` is the prior value as line 264 to 269 produce it —
`.naive t` when a stored string was parsed at line 266 (the `Z` in the
format is a literal, so no tzinfo is attached), `.aware t` for the
default `now(utc) - 1h` at line 269.  After the loop, line 360 compares
`new_timestamp > last_update` and line 361 stores the new value only
when that holds; a raise anywhere propagates and skips the write. -/
def update_sensors (last_update : PyDatetime)
    (sensors : Option (List SensorCycleInput)) : UpdateOutcome :=
  match sensors with
  | none => ⟨[], none, false⟩
  | some discovered =>
      let out := discovered.foldl processSensor ⟨[], last_update, false⟩
      if out.raised then ⟨out.states, none, true⟩
      else
        match PyDatetime.gtCompare out.new_timestamp last_update with
        | .error _ => ⟨out.states, none, true⟩
        | .ok later =>
            if later then ⟨out.states, some out.new_timestamp, false⟩
            else ⟨out.states, none, false⟩

end PulseSensorsLegacy

namespace PulseApp

open PulseModels

/-- Claim-side characterization of the messages `hub_sensor_updates`
contributes for one device: nothing when the fetch result is absent, one
state message when it is valid.  (Used to state the claims under the
assumption that no transport error occurs.) -/
def deviceContribution (env : Int → ApiOutcome LatestSensorData)
    (device : SensorDevice) : List Published :=
  match env device.id with
  | .valid d => [_publish_device_state device.id d]
  | _ => []

end PulseApp

section ScenarioInputs

open PulseModels PulseApp Sched

/-- The single data point of the end-to-end scenario: unit `%`, parameter
`Water Content`, value `42.5`. -/
def waterContentPoint : DataPointValue :=
  { MeasuringUnit := "%", ParamName := "Water Content", ParamValue := 42.5 }

/-- The `/sensors/10/recent-data` response of the end-to-end scenario,
reporting sensor type `VWC1`. -/
def waterData : LatestSensorData :=
  { sensorType := .VWC1, deviceType := 3, name := "Soil Sensor",
    dataPointDto := { dataPointValues := [waterContentPoint], sensorId := 10, createdAt := 0 } }

/-- The same reading reported with a different sensor type. -/
def waterDataTHV : LatestSensorData :=
  { waterData with sensorType := .THV1 }

/-- The scenario device: id 10, attached to hub 1. -/
def scenarioDevice : SensorDevice :=
  { hubId := 1, parSensorSubtype := none, deviceType := 3, sensorType := 1,
    id := 10, displayOrder := 0, name := "Soil Sensor", growId := 5, hidden := false }

/-- The scenario hub: id 1 with the single device 10. -/
def scenarioHub : HubDetails :=
  { id := 1, name := "Grow Hub", hubThresholds := [], hidden := false,
    macAddress := "AABBCCDDEEFF", growId := 5, sensorDevices := [scenarioDevice] }

/-- The scenario hub with a different hub id (7) and the identical
device list. -/
def scenarioHubSeven : HubDetails :=
  { scenarioHub with id := 7 }

/-- A sensor-fetch environment where only sensor 10 answers, with the
scenario reading. -/
def envWater : Int → ApiOutcome LatestSensorData :=
  fun i => if i = 10 then .valid waterData else .emptyBody

/-- A hub already in the snapshot from an earlier discovery cycle. -/
def hubOnePrior : HubDetails :=
  { id := 1, name := "Hub One", hubThresholds := [], hidden := false,
    macAddress := "AAAAAAAAAAAA", growId := 1, sensorDevices := [] }

/-- The hub the later discovery cycle fetches. -/
def hubTwoNew : HubDetails :=
  { id := 2, name := "Hub Two", hubThresholds := [], hidden := false,
    macAddress := "BBBBBBBBBBBB", growId := 1, sensorDevices := [] }

/-- A third hub, for the partial-failure batch. -/
def hubThreeNew : HubDetails :=
  { id := 3, name := "Hub Three", hubThresholds := [], hidden := false,
    macAddress := "CCCCCCCCCCCC", growId := 1, sensorDevices := [] }

/-- A hub-fetch environment where only hub id 2 exists; every other id
yields an empty body. -/
def envHubOnlyTwo : Int → ApiOutcome HubDetails :=
  fun i => if i = 2 then .valid hubTwoNew else .emptyBody

/-- A sensor-fetch environment where every fetch returns an empty
body. -/
def envSensorAbsent : Int → ApiOutcome LatestSensorData :=
  fun _ => .emptyBody

/-- A hub-fetch environment where hubs 1 and 3 validate and every other
id raises a transport error. -/
def envHubMidFail : Int → ApiOutcome HubDetails :=
  fun i => if i = 1 then .valid hubOnePrior
           else if i = 3 then .valid hubThreeNew
           else .transportError

/-- A hub-fetch environment where hubs 1 and 3 validate and hub 2 fails
schema validation; every other id yields an empty body. -/
def envHubOneInvalid : Int → ApiOutcome HubDetails :=
  fun i => if i = 1 then .valid hubOnePrior
           else if i = 2 then .invalid
           else if i = 3 then .valid hubThreeNew
           else .emptyBody

/-- The scheduler state after `PulseSensors.initialize` registered its
two jobs (600 s updates, 43200 s discovery). -/
def legacyTimersStart : SchedState :=
  { timers := [⟨0, .stateUpdate, "now", 600⟩, ⟨1, .discovery, "now", 43200⟩],
    nextHandle := 2 }

/-- The `PulseSensors` instance state right after startup. -/
def legacyAppStart : PulseSensorsLegacy.AppState :=
  { sched := legacyTimersStart, sensor_update_job_uuid := 0,
    sensor_discover_job_uuid := 1 }

/-- The scheduler state after `PulseApp` registered its two jobs (60 s
updates, 3600 s discovery). -/
def appTimersStart : SchedState :=
  { timers := [⟨0, .stateUpdate, "now", 60⟩, ⟨1, .discovery, "now", 3600⟩],
    nextHandle := 2 }

/-- The `PulseApp` instance state right after startup. -/
def appStart : PulseApp.TimerAppState :=
  { sched := appTimersStart, state_update_job := some 0, discovery_job := some 1 }

/-- One discovered sensor for the data-range revision, whose response
carries two timestamp strings that parse (to 10 and 7) and one
parameter group that parses and matches in length. -/
def exampleCycleSensor : PulseSensorsLegacy.SensorCycleInput :=
  { sensorId := "12", name := "Greenhouse",
    response := .ok [some 10, some 7]
      [{ ParamName := "Temperature", MeasuringUnit := "°F",
         parsedValues := some [71.5, 70.25] }] }

/-- The same sensor with a second timestamp string that does not parse
(`strptime` raises `ValueError` when the inner loop reaches it). -/
def malformedCycleSensor : PulseSensorsLegacy.SensorCycleInput :=
  { sensorId := "12", name := "Greenhouse",
    response := .ok [some 10, none]
      [{ ParamName := "Temperature", MeasuringUnit := "°F",
         parsedValues := some [71.5, 70.25] }] }

end ScenarioInputs

/-! ## Helper lemmas: characters and normalization -/

theorem char_ofNat_toNat_upper (n : Nat) (h1 : 65 ≤ n) (h2 : n ≤ 90) :
    (Char.ofNat (n + 32)).toNat = n + 32 := by
  interval_cases n <;> decide

theorem toLower_eq_of_upper (c : Char) (h : 65 ≤ c.toNat ∧ c.toNat ≤ 90) :
    Char.toLower c = Char.ofNat (c.toNat + 32) := by
  unfold Char.toLower
  rw [if_pos]
  exact ⟨h.1, h.2⟩

theorem toLower_eq_self (c : Char) (h : ¬(65 ≤ c.toNat ∧ c.toNat ≤ 90)) :
    Char.toLower c = c := by
  unfold Char.toLower
  rw [if_neg]
  exact h

theorem toLower_idem (c : Char) : (Char.toLower c).toLower = Char.toLower c := by
  by_cases h : 65 ≤ c.toNat ∧ c.toNat ≤ 90
  · rw [toLower_eq_of_upper c h]
    have hn := char_ofNat_toNat_upper c.toNat h.1 h.2
    apply toLower_eq_self
    rw [hn]
    omega
  · rw [toLower_eq_self c h]
    exact toLower_eq_self c h

theorem toLower_ne_space (c : Char) (h : c ≠ ' ') : Char.toLower c ≠ ' ' := by
  by_cases hr : 65 ≤ c.toNat ∧ c.toNat ≤ 90
  · rw [toLower_eq_of_upper c hr]
    intro he
    have hn := char_ofNat_toNat_upper c.toNat hr.1 hr.2
    rw [he] at hn
    have h32 : (' ' : Char).toNat = 32 := rfl
    omega
  · rw [toLower_eq_self c hr]
    exact h

theorem repSpaceChar_ne_space (c : Char) : PulseApp.repSpaceChar c ≠ ' ' := by
  unfold PulseApp.repSpaceChar
  by_cases h : c = ' '
  · rw [if_pos h]; decide
  · rw [if_neg h]; exact h

theorem repSpaceChar_eq_self (c : Char) (h : c ≠ ' ') :
    PulseApp.repSpaceChar c = c := by
  unfold PulseApp.repSpaceChar
  rw [if_neg h]

theorem normChar_idem (c : Char) :
    Char.toLower (PulseApp.repSpaceChar (Char.toLower (PulseApp.repSpaceChar c))) =
      Char.toLower (PulseApp.repSpaceChar c) := by
  have h1 : PulseApp.repSpaceChar c ≠ ' ' := repSpaceChar_ne_space c
  have h2 : Char.toLower (PulseApp.repSpaceChar c) ≠ ' ' := toLower_ne_space _ h1
  rw [repSpaceChar_eq_self _ h2, toLower_idem]

/-! ## Helper lemmas: dicts and the discovery loop -/

theorem mem_dictKeys_insert_iff {α : Type} (d : Dict α) (k q : String) (v : α) :
    q ∈ dictKeys (dictInsert d k v) ↔ q = k ∨ q ∈ dictKeys d := by
  unfold dictInsert dictKeys
  by_cases h : d.any (fun p => p.1 = k)
  · rw [if_pos h]
    rw [List.any_eq_true] at h
    obtain ⟨p0, hp0, hpk⟩ := h
    rw [decide_eq_true_eq] at hpk
    simp only [List.map_map, List.mem_map, Function.comp]
    constructor
    · rintro ⟨p, hp, hq⟩
      by_cases hc : p.1 = k
      · rw [if_pos hc] at hq
        exact Or.inl hq.symm
      · rw [if_neg hc] at hq
        exact Or.inr ⟨p, hp, hq⟩
    · rintro (rfl | ⟨p, hp, hq⟩)
      · exact ⟨p0, hp0, by rw [if_pos hpk]⟩
      · by_cases hc : p.1 = k
        · exact ⟨p, hp, by rw [if_pos hc]; rw [hq] at hc; exact hc.symm⟩
        · exact ⟨p, hp, by rw [if_neg hc]; exact hq⟩
  · rw [if_neg h]
    simp only [List.map_append, List.mem_append, List.map_cons, List.map_nil,
      List.mem_singleton, List.mem_cons]
    constructor
    · rintro (hq | hq)
      · exact Or.inr hq
      · simp at hq
        exact Or.inl hq
    · rintro (rfl | hq)
      · right; simp
      · left; exact hq

/-- The invariant of the `_process_and_publish_hubs` loop under the
assumption that no hub fetch raises a transport error: the loop never
raises, keys of the snapshot are only added (never removed), every hub
validated this cycle gains its key, every key of the final snapshot
either predates the loop or belongs to a hub validated this cycle, the
local attributes dict gains only keys of hubs validated this cycle, and
the loop body never performs the trailing `set_state`. -/
theorem processHubs_foldl_spec (envHub : Int → PulseApp.ApiOutcome PulseModels.HubDetails)
    (hub_ids : List Int) (st : PulseApp.DiscoveryState)
    (hr : st.raised = false)
    (henv : ∀ i ∈ hub_ids, envHub i ≠ .transportError) :
    (hub_ids.foldl (PulseApp.processHubStep envHub) st).raised = false
    ∧ (∀ q, q ∈ dictKeys st.discovered_hubs →
        q ∈ dictKeys (hub_ids.foldl (PulseApp.processHubStep envHub) st).discovered_hubs)
    ∧ (∀ i ∈ hub_ids, ∀ hb, envHub i = .valid hb →
        ("pulseapp_hub_" ++ toString hb.id) ∈
          dictKeys (hub_ids.foldl (PulseApp.processHubStep envHub) st).discovered_hubs)
    ∧ (∀ q, q ∈ dictKeys (hub_ids.foldl (PulseApp.processHubStep envHub) st).discovered_hubs →
        q ∈ dictKeys st.discovered_hubs
        ∨ ∃ i ∈ hub_ids, ∃ hb, envHub i = .valid hb
            ∧ q = "pulseapp_hub_" ++ toString hb.id)
    ∧ (∀ q, q ∈ dictKeys
          (hub_ids.foldl (PulseApp.processHubStep envHub) st).discovered_attributes →
        q ∈ dictKeys st.discovered_attributes
        ∨ ∃ i ∈ hub_ids, ∃ hb, envHub i = .valid hb
            ∧ q = "pulseapp_hub_" ++ toString hb.id)
    ∧ (hub_ids.foldl (PulseApp.processHubStep envHub) st).attributesSet
        = st.attributesSet := by
  induction hub_ids generalizing st with
  | nil =>
      refine ⟨hr, fun q hq => hq, ?_, fun q hq => Or.inl hq, fun q hq => Or.inl hq, rfl⟩
      intro i hi
      exact absurd hi (List.not_mem_nil i)
  | cons i rest ih =>
      rw [List.foldl_cons]
      have henvi : envHub i ≠ .transportError := henv i (List.mem_cons_self i rest)
      have henvrest : ∀ j ∈ rest, envHub j ≠ .transportError :=
        fun j hj => henv j (List.mem_cons_of_mem i hj)
      cases hei : envHub i with
      | transportError => exact absurd hei henvi
      | emptyBody =>
          have hstep : PulseApp.processHubStep envHub st i = st := by
            simp [PulseApp.processHubStep, PulseApp._get_hub_details, hr, hei]
          rw [hstep]
          obtain ⟨o1, o2, o3, o4, o5, o6⟩ := ih st hr henvrest
          refine ⟨o1, o2, ?_, ?_, ?_, o6⟩
          · intro j hj hb hjb
            rcases List.mem_cons.mp hj with rfl | hj
            · rw [hjb] at hei
              exact absurd hei.symm (by simp)
            · exact o3 j hj hb hjb
          · intro q hq
            rcases o4 q hq with hq | ⟨j, hj, hb, hjb, hqe⟩
            · exact Or.inl hq
            · exact Or.inr ⟨j, List.mem_cons_of_mem i hj, hb, hjb, hqe⟩
          · intro q hq
            rcases o5 q hq with hq | ⟨j, hj, hb, hjb, hqe⟩
            · exact Or.inl hq
            · exact Or.inr ⟨j, List.mem_cons_of_mem i hj, hb, hjb, hqe⟩
      | invalid =>
          have hstep : PulseApp.processHubStep envHub st i = st := by
            simp [PulseApp.processHubStep, PulseApp._get_hub_details, hr, hei]
          rw [hstep]
          obtain ⟨o1, o2, o3, o4, o5, o6⟩ := ih st hr henvrest
          refine ⟨o1, o2, ?_, ?_, ?_, o6⟩
          · intro j hj hb hjb
            rcases List.mem_cons.mp hj with rfl | hj
            · rw [hjb] at hei
              exact absurd hei.symm (by simp)
            · exact o3 j hj hb hjb
          · intro q hq
            rcases o4 q hq with hq | ⟨j, hj, hb, hjb, hqe⟩
            · exact Or.inl hq
            · exact Or.inr ⟨j, List.mem_cons_of_mem i hj, hb, hjb, hqe⟩
          · intro q hq
            rcases o5 q hq with hq | ⟨j, hj, hb, hjb, hqe⟩
            · exact Or.inl hq
            · exact Or.inr ⟨j, List.mem_cons_of_mem i hj, hb, hjb, hqe⟩
      | valid hb =>
          have hstep : PulseApp.processHubStep envHub st i =
              { st with
                published := st.published ++ [PulseApp.hubConfigMsg hb]
                discovered_hubs :=
                  dictInsert st.discovered_hubs ("pulseapp_hub_" ++ toString hb.id) hb
                discovered_attributes :=
                  dictInsert st.discovered_attributes
                    ("pulseapp_hub_" ++ toString hb.id) hb } := by
            simp [PulseApp.processHubStep, PulseApp._get_hub_details, hr, hei]
          rw [hstep]
          obtain ⟨o1, o2, o3, o4, o5, o6⟩ :=
            ih { st with
                  published := st.published ++ [PulseApp.hubConfigMsg hb]
                  discovered_hubs :=
                    dictInsert st.discovered_hubs ("pulseapp_hub_" ++ toString hb.id) hb
                  discovered_attributes :=
                    dictInsert st.discovered_attributes
                      ("pulseapp_hub_" ++ toString hb.id) hb }
              hr henvrest
          refine ⟨o1, ?_, ?_, ?_, ?_, o6⟩
          · intro q hq
            exact o2 q ((mem_dictKeys_insert_iff _ _ _ _).mpr (Or.inr hq))
          · intro j hj hb2 hjb
            rcases List.mem_cons.mp hj with rfl | hj
            · rw [hjb] at hei
              have : hb2 = hb := by
                cases hei
                rfl
              subst this
              exact o2 _ ((mem_dictKeys_insert_iff _ _ _ _).mpr (Or.inl rfl))
            · exact o3 j hj hb2 hjb
          · intro q hq
            rcases o4 q hq with hq | ⟨j, hj, hb2, hjb, hqe⟩
            · rcases (mem_dictKeys_insert_iff _ _ _ _).mp hq with rfl | hq
              · exact Or.inr ⟨i, List.mem_cons_self i rest, hb, hei, rfl⟩
              · exact Or.inl hq
            · exact Or.inr ⟨j, List.mem_cons_of_mem i hj, hb2, hjb, hqe⟩
          · intro q hq
            rcases o5 q hq with hq | ⟨j, hj, hb2, hjb, hqe⟩
            · rcases (mem_dictKeys_insert_iff _ _ _ _).mp hq with rfl | hq
              · exact Or.inr ⟨i, List.mem_cons_self i rest, hb, hei, rfl⟩
              · exact Or.inl hq
            · exact Or.inr ⟨j, List.mem_cons_of_mem i hj, hb2, hjb, hqe⟩

/-! ## Claim theorems: C2 and C5 (discovery snapshot) -/

/-- C2 counterexample: a discovery cycle that fetches only hub 2, run
from a snapshot holding hub 1 from an earlier cycle, completes without
raising yet leaves the old entry in `self.discovered_hubs` — the
snapshot is merged into, not replaced wholesale (while the
`discovered_hubs` state attributes published at the end of the cycle are
rebuilt fresh and list only hub 2). -/
theorem c2_snapshot_retained_counterexample :
    (PulseApp.hub_device_discovery (.valid [2]) envHubOnlyTwo envSensorAbsent
        [("pulseapp_hub_1", hubOnePrior)]).discovered_hubs
      = [("pulseapp_hub_1", hubOnePrior), ("pulseapp_hub_2", hubTwoNew)]
    ∧ (PulseApp.hub_device_discovery (.valid [2]) envHubOnlyTwo envSensorAbsent
        [("pulseapp_hub_1", hubOnePrior)]).raised = false
    ∧ (PulseApp.hub_device_discovery (.valid [2]) envHubOnlyTwo envSensorAbsent
        [("pulseapp_hub_1", hubOnePrior)]).attributesSet
      = some [("pulseapp_hub_2", hubTwoNew)] :=
  ⟨rfl, rfl, rfl⟩

/-- C2 amended: `_process_and_publish_hubs` upserts into
`self.discovered_hubs` without clearing it, so (absent transport errors)
the cycle completes with every pre-existing key retained and every hub
validated this cycle inserted under its key; only the
`discovered_hubs` state attributes published through `set_state` at the
end of the cycle are rebuilt from scratch, holding exactly the hubs
validated this cycle. -/
theorem c2_snapshot_upsert_amended
    (envHub : Int → PulseApp.ApiOutcome PulseModels.HubDetails)
    (hub_ids : List Int) (prior : Dict PulseModels.HubDetails)
    (h : ∀ i ∈ hub_ids, envHub i ≠ .transportError) :
    (PulseApp._process_and_publish_hubs envHub hub_ids prior).raised = false
    ∧ (∀ q ∈ dictKeys prior,
        q ∈ dictKeys (PulseApp._process_and_publish_hubs envHub hub_ids
          prior).discovered_hubs)
    ∧ (∀ i ∈ hub_ids, ∀ hb, envHub i = .valid hb →
        ("pulseapp_hub_" ++ toString hb.id) ∈
          dictKeys (PulseApp._process_and_publish_hubs envHub hub_ids
            prior).discovered_hubs)
    ∧ (PulseApp._process_and_publish_hubs envHub hub_ids prior).attributesSet
        = some (PulseApp._process_and_publish_hubs envHub hub_ids
            prior).discovered_attributes
    ∧ (∀ q ∈ dictKeys (PulseApp._process_and_publish_hubs envHub hub_ids
          prior).discovered_attributes,
        ∃ i ∈ hub_ids, ∃ hb, envHub i = .valid hb
          ∧ q = "pulseapp_hub_" ++ toString hb.id) := by
  obtain ⟨o1, o2, o3, o4, o5, o6⟩ :=
    processHubs_foldl_spec envHub hub_ids ⟨prior, [], [], none, false⟩ rfl h
  have hres : PulseApp._process_and_publish_hubs envHub hub_ids prior =
      { hub_ids.foldl (PulseApp.processHubStep envHub) ⟨prior, [], [], none, false⟩ with
        attributesSet :=
          some (hub_ids.foldl (PulseApp.processHubStep envHub)
            ⟨prior, [], [], none, false⟩).discovered_attributes } := by
    simp only [PulseApp._process_and_publish_hubs]
    simp [o1]
  rw [hres]
  refine ⟨o1, ?_, ?_, rfl, ?_⟩
  · intro q hq
    exact o2 q hq
  · intro i hi hb hib
    exact o3 i hi hb hib
  · intro q hq
    rcases o5 q hq with hq | he
    · exact absurd hq (by simp [dictKeys])
    · exact he

/-- C2 witness: the amended theorem applied to the concrete two-cycle
scenario (prior snapshot holds hub 1; the cycle fetches only hub 2). -/
theorem c2_snapshot_upsert_witness :
    (PulseApp._process_and_publish_hubs envHubOnlyTwo [2]
        [("pulseapp_hub_1", hubOnePrior)]).raised = false
    ∧ (∀ q ∈ dictKeys [("pulseapp_hub_1", hubOnePrior)],
        q ∈ dictKeys (PulseApp._process_and_publish_hubs envHubOnlyTwo [2]
          [("pulseapp_hub_1", hubOnePrior)]).discovered_hubs)
    ∧ (∀ i ∈ [(2 : Int)], ∀ hb, envHubOnlyTwo i = .valid hb →
        ("pulseapp_hub_" ++ toString hb.id) ∈
          dictKeys (PulseApp._process_and_publish_hubs envHubOnlyTwo [2]
            [("pulseapp_hub_1", hubOnePrior)]).discovered_hubs)
    ∧ (PulseApp._process_and_publish_hubs envHubOnlyTwo [2]
        [("pulseapp_hub_1", hubOnePrior)]).attributesSet
        = some (PulseApp._process_and_publish_hubs envHubOnlyTwo [2]
            [("pulseapp_hub_1", hubOnePrior)]).discovered_attributes
    ∧ (∀ q ∈ dictKeys (PulseApp._process_and_publish_hubs envHubOnlyTwo [2]
          [("pulseapp_hub_1", hubOnePrior)]).discovered_attributes,
        ∃ i ∈ [(2 : Int)], ∃ hb, envHubOnlyTwo i = .valid hb
          ∧ q = "pulseapp_hub_" ++ toString hb.id) :=
  c2_snapshot_upsert_amended envHubOnlyTwo [2] [("pulseapp_hub_1", hubOnePrior)]
    (by decide)

/-- C5 counterexample: with hub ids `[1, 2, 3]` where the fetch for hub
2 raises a transport error (the claim lists transport errors among the
covered failures), the discovery loop raises, the batch is not
completed, and the snapshot is missing hub 3 — it does not contain
entries for the other M−1 hubs. -/
theorem c5_transport_error_aborts_counterexample :
    (PulseApp._process_and_publish_hubs envHubMidFail [1, 2, 3] []).raised = true
    ∧ dictKeys (PulseApp._process_and_publish_hubs envHubMidFail
        [1, 2, 3] []).discovered_hubs = ["pulseapp_hub_1"]
    ∧ "pulseapp_hub_3" ∉ dictKeys (PulseApp._process_and_publish_hubs envHubMidFail
        [1, 2, 3] []).discovered_hubs
    ∧ (PulseApp._process_and_publish_hubs envHubMidFail [1, 2, 3] []).attributesSet
        = none := by
  decide

/-- C5 amended: when every failing hub fails with an empty response or a
schema-validation failure (no transport error), discovery does not raise,
the batch completes, every validated hub gains an entry, and no key is
added beyond the prior snapshot and the validated hubs — so for M hub
ids with one such failure, the other M−1 hubs all have entries.  A
transport error instead propagates out of `_get_hub_details` and aborts
the remainder of the batch. -/
theorem c5_skip_failed_hub_amended
    (envHub : Int → PulseApp.ApiOutcome PulseModels.HubDetails)
    (hub_ids : List Int) (prior : Dict PulseModels.HubDetails)
    (h : ∀ i ∈ hub_ids, envHub i ≠ .transportError) :
    (PulseApp._process_and_publish_hubs envHub hub_ids prior).raised = false
    ∧ (∀ i ∈ hub_ids, ∀ hb, envHub i = .valid hb →
        ("pulseapp_hub_" ++ toString hb.id) ∈
          dictKeys (PulseApp._process_and_publish_hubs envHub hub_ids
            prior).discovered_hubs)
    ∧ (∀ q ∈ dictKeys (PulseApp._process_and_publish_hubs envHub hub_ids
          prior).discovered_hubs,
        q ∈ dictKeys prior
        ∨ ∃ i ∈ hub_ids, ∃ hb, envHub i = .valid hb
            ∧ q = "pulseapp_hub_" ++ toString hb.id) := by
  obtain ⟨o1, o2, o3, o4, o5, o6⟩ :=
    processHubs_foldl_spec envHub hub_ids ⟨prior, [], [], none, false⟩ rfl h
  have hres : PulseApp._process_and_publish_hubs envHub hub_ids prior =
      { hub_ids.foldl (PulseApp.processHubStep envHub) ⟨prior, [], [], none, false⟩ with
        attributesSet :=
          some (hub_ids.foldl (PulseApp.processHubStep envHub)
            ⟨prior, [], [], none, false⟩).discovered_attributes } := by
    simp only [PulseApp._process_and_publish_hubs]
    simp [o1]
  rw [hres]
  exact ⟨o1, fun i hi hb hib => o3 i hi hb hib, fun q hq => o4 q hq⟩

/-- C5 witness: the amended theorem applied to the concrete batch
`[1, 2, 3]` where hub 2 fails schema validation and hubs 1 and 3
validate. -/
theorem c5_skip_failed_hub_witness :
    (PulseApp._process_and_publish_hubs envHubOneInvalid [1, 2, 3] []).raised = false
    ∧ (∀ i ∈ [(1 : Int), 2, 3], ∀ hb, envHubOneInvalid i = .valid hb →
        ("pulseapp_hub_" ++ toString hb.id) ∈
          dictKeys (PulseApp._process_and_publish_hubs envHubOneInvalid
            [1, 2, 3] []).discovered_hubs)
    ∧ (∀ q ∈ dictKeys (PulseApp._process_and_publish_hubs envHubOneInvalid
          [1, 2, 3] []).discovered_hubs,
        q ∈ dictKeys ([] : Dict PulseModels.HubDetails)
        ∨ ∃ i ∈ [(1 : Int), 2, 3], ∃ hb, envHubOneInvalid i = .valid hb
            ∧ q = "pulseapp_hub_" ++ toString hb.id) :=
  c5_skip_failed_hub_amended envHubOneInvalid [1, 2, 3] [] (by decide)

/-! ## Helper lemmas: the state-publish loop -/

theorem filter_flatMap {α β : Type} (l : List α) (f : α → List β) (p : β → Bool) :
    (l.flatMap f).filter p = l.flatMap (fun a => (f a).filter p) := by
  induction l with
  | nil => rfl
  | cons a rest ih => simp only [List.flatMap_cons, List.filter_append, ih]

theorem flatMap_congr_left {α β : Type} (l : List α) (f g : α → List β)
    (h : ∀ a ∈ l, f a = g a) : l.flatMap f = l.flatMap g := by
  induction l with
  | nil => rfl
  | cons a rest ih =>
      rw [List.flatMap_cons, List.flatMap_cons, h a (List.mem_cons_self a rest),
        ih (fun b hb => h b (List.mem_cons_of_mem a hb))]

/-- The inner device loop of `hub_sensor_updates`, in closed form: with
no transport error among the devices, it never raises, fetches every
device id in order, and appends exactly the per-device contributions. -/
theorem updateDevicesLoop_spec
    (env : Int → PulseApp.ApiOutcome PulseModels.LatestSensorData)
    (devices : List PulseModels.SensorDevice)
    (pub : List PulseApp.Published) (fet : List Int)
    (h : ∀ dv ∈ devices, env dv.id ≠ .transportError) :
    PulseApp.updateDevicesLoop env devices ⟨pub, fet, false⟩ =
      ⟨pub ++ devices.flatMap (PulseApp.deviceContribution env),
       fet ++ devices.map (fun dv => dv.id), false⟩ := by
  induction devices generalizing pub fet with
  | nil => simp [PulseApp.updateDevicesLoop]
  | cons dv rest ih =>
      have hdv : env dv.id ≠ .transportError := h dv (List.mem_cons_self dv rest)
      have hrest : ∀ x ∈ rest, env x.id ≠ .transportError :=
        fun x hx => h x (List.mem_cons_of_mem dv hx)
      cases he : env dv.id with
      | transportError => exact absurd he hdv
      | emptyBody =>
          have hstep : PulseApp.updateDevicesLoop env (dv :: rest) ⟨pub, fet, false⟩
              = PulseApp.updateDevicesLoop env rest ⟨pub, fet ++ [dv.id], false⟩ := by
            simp only [PulseApp.updateDevicesLoop, List.foldl_cons]
            congr 1
            simp [PulseApp.get_sensor_latest_data, he]
          rw [hstep, ih _ _ hrest]
          simp [List.flatMap_cons, PulseApp.deviceContribution, he, List.append_assoc]
      | invalid =>
          have hstep : PulseApp.updateDevicesLoop env (dv :: rest) ⟨pub, fet, false⟩
              = PulseApp.updateDevicesLoop env rest ⟨pub, fet ++ [dv.id], false⟩ := by
            simp only [PulseApp.updateDevicesLoop, List.foldl_cons]
            congr 1
            simp [PulseApp.get_sensor_latest_data, he]
          rw [hstep, ih _ _ hrest]
          simp [List.flatMap_cons, PulseApp.deviceContribution, he, List.append_assoc]
      | valid dd =>
          have hstep : PulseApp.updateDevicesLoop env (dv :: rest) ⟨pub, fet, false⟩
              = PulseApp.updateDevicesLoop env rest
                  ⟨pub ++ [PulseApp._publish_device_state dv.id dd],
                   fet ++ [dv.id], false⟩ := by
            simp only [PulseApp.updateDevicesLoop, List.foldl_cons]
            congr 1
            simp [PulseApp.get_sensor_latest_data, he]
          rw [hstep, ih _ _ hrest]
          simp [List.flatMap_cons, PulseApp.deviceContribution, he, List.append_assoc]

/-- The outer hub loop of `hub_sensor_updates`, in closed form. -/
theorem hubUpdateLoop_spec
    (env : Int → PulseApp.ApiOutcome PulseModels.LatestSensorData)
    (hubs : Dict PulseModels.HubDetails)
    (pub : List PulseApp.Published) (fet : List Int)
    (h : ∀ i, env i ≠ .transportError) :
    hubs.foldl (PulseApp.hubUpdateStep env) ⟨pub, fet, false⟩ =
      ⟨pub ++ hubs.flatMap (fun p => PulseApp._publish_hub_state p.2 ::
          p.2.sensorDevices.flatMap (PulseApp.deviceContribution env)),
       fet ++ hubs.flatMap (fun p => p.2.sensorDevices.map (fun dv => dv.id)),
       false⟩ := by
  induction hubs generalizing pub fet with
  | nil => simp
  | cons hp rest ih =>
      rw [List.foldl_cons]
      have hstep : PulseApp.hubUpdateStep env ⟨pub, fet, false⟩ hp =
          ⟨(pub ++ [PulseApp._publish_hub_state hp.2])
              ++ hp.2.sensorDevices.flatMap (PulseApp.deviceContribution env),
           fet ++ hp.2.sensorDevices.map (fun dv => dv.id), false⟩ := by
        simp only [PulseApp.hubUpdateStep]
        rw [if_neg (by simp)]
        exact updateDevicesLoop_spec env hp.2.sensorDevices
          (pub ++ [PulseApp._publish_hub_state hp.2]) fet
          (fun dv _ => h dv.id)
      rw [hstep, ih _ _]
      simp [List.flatMap_cons, List.append_assoc]

/-- `hub_sensor_updates` in closed form, with no transport error among
the fetches. -/
theorem hub_sensor_updates_spec
    (env : Int → PulseApp.ApiOutcome PulseModels.LatestSensorData)
    (hubs : Dict PulseModels.HubDetails)
    (h : ∀ i, env i ≠ .transportError) :
    PulseApp.hub_sensor_updates env hubs =
      ⟨hubs.flatMap (fun p => PulseApp._publish_hub_state p.2 ::
          p.2.sensorDevices.flatMap (PulseApp.deviceContribution env)),
       hubs.flatMap (fun p => p.2.sensorDevices.map (fun dv => dv.id)),
       false⟩ := by
  unfold PulseApp.hub_sensor_updates
  by_cases hh : hubs = []
  · subst hh
    simp
  · rw [if_neg hh]
    exact hubUpdateLoop_spec env hubs [] [] h

/-! ## Claim theorems: C10 (last-update timestamp) -/

/-- C10: the claimed monotone max-write behavior is the evident intent
of `update_sensors` — line 361 stores the running maximum in a UTC `Z`
format and line 334 carefully makes every entry aware — but the code
contradicts its own round-trip: the stored string is re-read at line 266
as a NAIVE datetime, and the aware-vs-naive comparison at line 336 then
raises `TypeError`, crashing the cycle before the write.  This theorem
evaluates the embedding at the failing input and its neighbours: with a
stored (naive) prior of 5 and a successfully parsed, strictly later
entry 10, the cycle raises, writes no state and stores nothing; the same
data under the first-cycle (aware) default prior completes, publishes
both entries, and stores the maximum `aware 10`; with an aware prior 12
no entry is strictly later and the stored value is unchanged; and a
malformed timestamp string raises `ValueError` mid-loop, again storing
nothing although the parsed entry 10 is strictly later than 5. -/
theorem c10_naive_aware_crash :
    (PulseSensorsLegacy.update_sensors (.naive 5) (some [exampleCycleSensor])).raised
      = true
    ∧ (PulseSensorsLegacy.update_sensors (.naive 5) (some [exampleCycleSensor])).stored
      = none
    ∧ (PulseSensorsLegacy.update_sensors (.naive 5) (some [exampleCycleSensor])).states
      = []
    ∧ (PulseSensorsLegacy.update_sensors (.aware 5) (some [exampleCycleSensor])).raised
      = false
    ∧ (PulseSensorsLegacy.update_sensors (.aware 5) (some [exampleCycleSensor])).stored
      = some (.aware 10)
    ∧ (PulseSensorsLegacy.update_sensors
        (.aware 5) (some [exampleCycleSensor])).states.length = 2
    ∧ (PulseSensorsLegacy.update_sensors (.aware 12) (some [exampleCycleSensor])).stored
      = none
    ∧ (PulseSensorsLegacy.update_sensors (.aware 12) (some [exampleCycleSensor])).raised
      = false
    ∧ (PulseSensorsLegacy.update_sensors (.aware 5) (some [malformedCycleSensor])).raised
      = true
    ∧ (PulseSensorsLegacy.update_sensors (.aware 5) (some [malformedCycleSensor])).stored
      = none
    ∧ (PulseSensorsLegacy.update_sensors
        (.aware 5) (some [malformedCycleSensor])).states.length = 1 := by
  decide

/-! ## Claim theorems: C6 (failed device skipped) -/

/-- C6: during a state-publish cycle where the latest-reading fetch for
device `d` returns absent (and no fetch raises), the cycle completes for
every hub and device, no state message is emitted for `d`, and the
messages for the other devices are exactly those of a cycle whose
environment agrees everywhere except at `d` — removing the messages for
`d` from that run yields this run. -/
theorem c6_failed_device_skipped
    (env env' : Int → PulseApp.ApiOutcome PulseModels.LatestSensorData)
    (hubs : Dict PulseModels.HubDetails) (d : Int)
    (h1 : ∀ i, env i ≠ .transportError)
    (h2 : ∀ i, env' i ≠ .transportError)
    (h3 : env d = .emptyBody ∨ env d = .invalid)
    (h4 : ∀ i, i ≠ d → env' i = env i) :
    (PulseApp.hub_sensor_updates env hubs).raised = false
    ∧ (∀ m ∈ (PulseApp.hub_sensor_updates env hubs).published,
        PulseApp.Published.isStateFor d m = false)
    ∧ (PulseApp.hub_sensor_updates env' hubs).published.filter
        (fun m => !(PulseApp.Published.isStateFor d m))
      = (PulseApp.hub_sensor_updates env hubs).published := by
  rw [hub_sensor_updates_spec env hubs h1, hub_sensor_updates_spec env' hubs h2]
  refine ⟨rfl, ?_, ?_⟩
  · intro m hm
    rcases List.mem_flatMap.mp hm with ⟨p, hp, hm⟩
    rcases List.mem_cons.mp hm with rfl | hm
    · rfl
    · rcases List.mem_flatMap.mp hm with ⟨dv, hdv, hmc⟩
      unfold PulseApp.deviceContribution at hmc
      cases he : env dv.id with
      | transportError => exact absurd he (h1 dv.id)
      | emptyBody => rw [he] at hmc; exact absurd hmc (List.not_mem_nil m)
      | invalid => rw [he] at hmc; exact absurd hmc (List.not_mem_nil m)
      | valid dd =>
          rw [he] at hmc
          rcases List.mem_singleton.mp hmc with rfl
          by_cases hdd : dv.id = d
          · rw [hdd] at he
            rcases h3 with h3 | h3 <;> rw [h3] at he <;> exact absurd he (by simp)
          · simp [PulseApp._publish_device_state, PulseApp.Published.isStateFor, hdd]
  · rw [filter_flatMap]
    apply flatMap_congr_left
    intro p _
    rw [List.filter_cons_of_pos (by simp [PulseApp._publish_hub_state,
      PulseApp.Published.isStateFor])]
    congr 1
    rw [filter_flatMap]
    apply flatMap_congr_left
    intro dv _
    by_cases hdd : dv.id = d
    · have hcontrib : PulseApp.deviceContribution env dv = [] := by
        unfold PulseApp.deviceContribution
        rw [hdd]
        rcases h3 with h3 | h3 <;> rw [h3]
      rw [hcontrib]
      unfold PulseApp.deviceContribution
      cases he' : env' dv.id with
      | transportError => exact absurd he' (h2 dv.id)
      | emptyBody => rfl
      | invalid => rfl
      | valid dd =>
          rw [List.filter_cons_of_neg (by
            simp [PulseApp._publish_device_state, PulseApp.Published.isStateFor, hdd])]
          rfl
    · have hsame : PulseApp.deviceContribution env' dv
          = PulseApp.deviceContribution env dv := by
        unfold PulseApp.deviceContribution
        rw [h4 dv.id hdd]
      rw [hsame]
      unfold PulseApp.deviceContribution
      cases he : env dv.id with
      | transportError => exact absurd he (h1 dv.id)
      | emptyBody => rfl
      | invalid => rfl
      | valid dd =>
          rw [List.filter_cons_of_pos (by
            simp [PulseApp._publish_device_state, PulseApp.Published.isStateFor, hdd])]
          rfl

/-- C6 witness: the theorem applied to the scenario snapshot with the
failing device id 99 (whose fetch returns an empty body in `envWater`)
and an agreeing second environment. -/
theorem c6_failed_device_skipped_witness :
    (PulseApp.hub_sensor_updates envWater
        [("pulseapp_hub_1", scenarioHub)]).raised = false
    ∧ (∀ m ∈ (PulseApp.hub_sensor_updates envWater
          [("pulseapp_hub_1", scenarioHub)]).published,
        PulseApp.Published.isStateFor 99 m = false)
    ∧ (PulseApp.hub_sensor_updates envWater
          [("pulseapp_hub_1", scenarioHub)]).published.filter
        (fun m => !(PulseApp.Published.isStateFor 99 m))
      = (PulseApp.hub_sensor_updates envWater
          [("pulseapp_hub_1", scenarioHub)]).published :=
  c6_failed_device_skipped envWater envWater [("pulseapp_hub_1", scenarioHub)] 99
    (by intro i; unfold envWater; split <;> simp)
    (by intro i; unfold envWater; split <;> simp)
    (Or.inl rfl)
    (fun i _ => rfl)

/-! ## Claim theorems: C3 (published-entity identifier) -/

/-- C3 counterexample: the published identifier is not built from the
hub id — it is built from the sensor-type name.  Two fetches for the
same device 10 with identical data points (hence identical hub id,
device id and normalized parameter name) but different reported sensor
types publish under different identifiers; and the same device publishes
under the identical identifier whether its hub has id 1 or id 7 (only
the hub state message differs between the two runs). -/
theorem c3_identifier_sensor_type_counterexample :
    PulseApp._publish_device_state 10 waterData
      ≠ PulseApp._publish_device_state 10 waterDataTHV
    ∧ waterData.dataPointDto = waterDataTHV.dataPointDto
    ∧ PulseApp._generate_sensor_payload waterData
      = PulseApp._generate_sensor_payload waterDataTHV
    ∧ (PulseApp.hub_sensor_updates envWater
        [("pulseapp_hub_1", scenarioHub)]).published.drop 1
      = (PulseApp.hub_sensor_updates envWater
        [("pulseapp_hub_7", scenarioHubSeven)]).published.drop 1 := by
  refine ⟨by decide, rfl, rfl, rfl⟩

/-- C3 amended: the published-entity identifier is deterministic and
built from the device's reported sensor-type name (lowercased), the
device id, and the normalized parameter name — the hub id does not enter
it.  In the end-to-end scenario (hub 1, device 10, parameter
`Water Content`, value `42.5`, sensor type `VWC1`) the state publisher
emits `42.5` under the key `water_content` on the state topic of
`pulseapp_vwc1_10`. -/
theorem c3_identifier_amended
    (env : Int → PulseApp.ApiOutcome PulseModels.LatestSensorData)
    (h : env 10 = .valid waterData) :
    (PulseApp.hub_sensor_updates env [("pulseapp_hub_1", scenarioHub)]).published
      = [PulseApp._publish_hub_state scenarioHub,
         .deviceState "pulseapp/pulseapp_vwc1_10/state" 10
           [("water_content", (42.5 : ℚ))]]
    ∧ PulseApp.deviceUniqueIdForState 10 waterData = "pulseapp_vwc1_10"
    ∧ PulseApp._generate_sensor_payload waterData = [("water_content", (42.5 : ℚ))] := by
  refine ⟨?_, rfl, rfl⟩
  have hid : scenarioDevice.id = (10 : Int) := rfl
  simp [PulseApp.hub_sensor_updates, PulseApp.hubUpdateStep, PulseApp.updateDevicesLoop,
    scenarioHub, scenarioDevice, PulseApp.get_sensor_latest_data, h]
  rfl

/-- C3 witness: the amended theorem applied at the concrete environment
where sensor 10 returns the scenario reading. -/
theorem c3_identifier_witness :
    (PulseApp.hub_sensor_updates envWater [("pulseapp_hub_1", scenarioHub)]).published
      = [PulseApp._publish_hub_state scenarioHub,
         .deviceState "pulseapp/pulseapp_vwc1_10/state" 10
           [("water_content", (42.5 : ℚ))]]
    ∧ PulseApp.deviceUniqueIdForState 10 waterData = "pulseapp_vwc1_10"
    ∧ PulseApp._generate_sensor_payload waterData = [("water_content", (42.5 : ℚ))] :=
  c3_identifier_amended envWater rfl

/-! ## Claim theorems: C8, C7, C1, C9, C4 -/

/-- C8: parameter-name normalization (replace each space with an
underscore, then lowercase) is deterministic and idempotent — for every
string `s`, `normalize (normalize s) = normalize s` — and
`normalize "Dew Point" = "dew_point"`. -/
theorem c8_normalization_idempotent :
    (∀ s : String,
      PulseApp.normalizeParamName (PulseApp.normalizeParamName s) =
        PulseApp.normalizeParamName s)
    ∧ PulseApp.normalizeParamName "Dew Point" = "dew_point" := by
  constructor
  · intro s
    unfold PulseApp.normalizeParamName PulseApp.pyLower
      PulseApp.pyReplaceSpaceWithUnderscore
    simp only [String.data]
    simp only [List.map_map]
    congr 1
    apply List.map_congr_left
    intro c _
    exact normChar_idem c
  · rfl

/-- C7: device-class hint derivation is an exact, case-sensitive lookup
in the fixed four-entry table; `"Water Content"` maps to the moisture
hint and every other string (for example `"Soil pH"`) yields `none`. -/
theorem c7_device_class_lookup (s : String)
    (h : s ∉ ["Humidity", "Temperature", "Water Content", "VPD"]) :
    PulseModels.DeviceClass.from_param_name "Humidity" = some .HUMIDITY
    ∧ PulseModels.DeviceClass.from_param_name "Temperature" = some .TEMPERATURE
    ∧ PulseModels.DeviceClass.from_param_name "Water Content" = some .MOISTURE
    ∧ PulseModels.DeviceClass.from_param_name "VPD" = some .PRESSURE
    ∧ PulseModels.DeviceClass.from_param_name "Soil pH" = none
    ∧ PulseModels.DeviceClass.from_param_name s = none := by
  simp only [List.mem_cons, List.not_mem_nil, or_false] at h
  push_neg at h
  obtain ⟨h1, h2, h3, h4⟩ := h
  refine ⟨by decide, by decide, by decide, by decide, by decide, ?_⟩
  unfold PulseModels.DeviceClass.from_param_name
  rw [if_neg h1, if_neg h2, if_neg h3, if_neg h4]

/-- C7 witness: the theorem applied at the concrete unlisted name
`"Soil pH"`. -/
theorem c7_device_class_lookup_witness :
    PulseModels.DeviceClass.from_param_name "Soil pH" = none :=
  (c7_device_class_lookup "Soil pH" (by decide)).2.2.2.2.2

/-- C1 counterexample: the claim says all four enumerations map an
out-of-range integer to `UNKNOWN` without raising, but `ThresholdType`
defines neither an `UNKNOWN` member nor a `_missing_` classmethod, so
`ThresholdType(0)` raises `ValueError` (modelled by `none`). -/
theorem c1_thresholdtype_raises_counterexample :
    PulseModels.ThresholdType.fromValue 0 = none
    ∧ (0 : Int) ∉ PulseModels.ThresholdType.definedValues := by
  exact ⟨rfl, by decide⟩

/-- C1 amended: `DeviceType`, `SensorType` and `SensorReadingType` map
every integer outside their defined sets to `UNKNOWN` and never raise;
`ThresholdType` has no `UNKNOWN` member and raises `ValueError`
(modelled by `none`) for every integer outside its defined set. -/
theorem c1_unknown_fallback_amended (v : Int)
    (h1 : v ∉ PulseModels.DeviceType.definedValues)
    (h2 : v ∉ PulseModels.SensorType.definedValues)
    (h3 : v ∉ PulseModels.SensorReadingType.definedValues)
    (h4 : v ∉ PulseModels.ThresholdType.definedValues) :
    PulseModels.DeviceType.fromValue v = .UNKNOWN
    ∧ PulseModels.SensorType.fromValue v = .UNKNOWN
    ∧ PulseModels.SensorReadingType.fromValue v = .UNKNOWN
    ∧ PulseModels.ThresholdType.fromValue v = none := by
  simp only [PulseModels.DeviceType.definedValues, PulseModels.SensorType.definedValues,
    PulseModels.SensorReadingType.definedValues, PulseModels.ThresholdType.definedValues,
    List.mem_cons, List.not_mem_nil, or_false] at h1 h2 h3 h4
  push_neg at h1 h2 h3 h4
  refine ⟨?_, ?_, ?_, ?_⟩
  · obtain ⟨a0, a1, a2, a3, a4, a5, am⟩ := h1
    simp [PulseModels.DeviceType.fromValue, a0, a1, a2, a3, a4, a5, am]
  · obtain ⟨b0, b1, b2, b3, b4, b5, b8, b9, b10, b11, b12, b13, bm⟩ := h2
    simp [PulseModels.SensorType.fromValue, b0, b1, b2, b3, b4, b5, b8, b9, b10,
      b11, b12, b13, bm]
  · obtain ⟨d0, d1, d2, d3, d4, d5, d6, d7, d8, d9, d10, d11, d12, d13, d14, d15,
      d16, d17, d18, d19, d20, d21, d22, d23, d24, d25, dm⟩ := h3
    simp [PulseModels.SensorReadingType.fromValue, d0, d1, d2, d3, d4, d5, d6, d7,
      d8, d9, d10, d11, d12, d13, d14, d15, d16, d17, d18, d19, d20, d21, d22,
      d23, d24, d25, dm]
  · obtain ⟨e1, e2, e3, e4, e5, e6, e7, e8, e11, e12⟩ := h4
    simp [PulseModels.ThresholdType.fromValue, e1, e2, e3, e4, e5, e6, e7, e8, e11, e12]

/-- C1 witness: the amended theorem applied at the out-of-range code
`99`. -/
theorem c1_unknown_fallback_witness :
    PulseModels.DeviceType.fromValue 99 = .UNKNOWN
    ∧ PulseModels.SensorType.fromValue 99 = .UNKNOWN
    ∧ PulseModels.SensorReadingType.fromValue 99 = .UNKNOWN
    ∧ PulseModels.ThresholdType.fromValue 99 = none :=
  c1_unknown_fallback_amended 99 (by decide) (by decide) (by decide) (by decide)

/-- C9: with an empty topology snapshot (no prior discovery), the
state-publish callback is a no-op — it publishes nothing, fetches no
latest readings, and raises nothing. -/
theorem c9_no_discovery_noop
    (env : Int → PulseApp.ApiOutcome PulseModels.LatestSensorData) :
    PulseApp.hub_sensor_updates env [] = ⟨[], [], false⟩ := rfl

/-- C4: the claim holds for the `pulseapp/app.py` listener but fails on
`pulse_sensors.py`: `update_intervals` there compares the entity against
`input_number.pulse_update_interval` and
`input_number.pulse_discover_interval`, names its `listen_state`
registrations never deliver, so a change of either listened entity
leaves both timers untouched.  The `pulseapp/app.py` revision cancels
the discovery timer and schedules exactly one new one at the new value,
leaving the update timer unchanged. -/
theorem c4_interval_listener_bug :
    "input_number.sensor_discovery_interval" ∈ PulseSensorsLegacy.listenedEntities
    ∧ "input_number.sensor_update_interval" ∈ PulseSensorsLegacy.listenedEntities
    ∧ PulseSensorsLegacy.update_intervals
        "input_number.sensor_discovery_interval" 120 legacyAppStart = legacyAppStart
    ∧ PulseSensorsLegacy.update_intervals
        "input_number.sensor_update_interval" 300 legacyAppStart = legacyAppStart
    ∧ (PulseApp.update_intervals
        "input_number.sensor_discovery_interval" 120 appStart).sched.timers
        = [⟨0, .stateUpdate, "now", 60⟩, ⟨2, .discovery, "now", 120⟩]
    ∧ (PulseApp.update_intervals
        "input_number.sensor_discovery_interval" 120 appStart).discovery_job = some 2
    ∧ (PulseApp.update_intervals
        "input_number.sensor_discovery_interval" 120 appStart).state_update_job
        = some 0
    ∧ (PulseApp.update_intervals
        "input_number.sensor_update_interval" 300 appStart).sched.timers
        = [⟨1, .discovery, "now", 3600⟩, ⟨2, .stateUpdate, "now", 300⟩]
    ∧ (PulseApp.update_intervals
        "input_number.sensor_update_interval" 300 appStart).state_update_job = some 2
    ∧ (PulseApp.update_intervals
        "input_number.sensor_update_interval" 300 appStart).discovery_job = some 1 := by
  decide

end PulseVerif
